import Mathlib

/-!
Shallow embedding of `src/session.c` (bi-zone/etw): the property-length
resolver `GetPropertyLength`, the timestamp composer `GetTimeStamp`, the
struct-span accessors `GetStartIndex` / `GetLastIndex`, and the value-map
string normalizer `RemoveTrailingSpace`, together with the TDH data model
they read (`TRACE_EVENT_INFO` / `EVENT_PROPERTY_INFO` / `EVENT_RECORD`).

Machine integers are modelled as `Nat` (with explicit `% 2 ^ w` where the C
code can wrap) and as `Int` for the one signed field (`LARGE_INTEGER.HighPart`,
a `LONG`).  The two external TDH calls made by `GetPropertyLength`
(`TdhGetPropertySize`, `TdhGetProperty`) are modelled as an oracle
environment `TdhEnv`, keyed by the event record and by the name offset
placed in the `PROPERTY_DATA_DESCRIPTOR`.
-/

set_option linter.unusedVariables false

/-- `ERROR_SUCCESS` Windows status code. -/
def ERROR_SUCCESS : Nat := 0

/-- `ERROR_EVT_INVALID_EVENT_DATA` Windows status code (15005). -/
def ERROR_EVT_INVALID_EVENT_DATA : Nat := 15005

/-- TDH `PROPERTY_FLAGS` bit: the property is a struct (`PropertyStruct = 0x1`). -/
def PropertyStruct : Nat := 1

/-- TDH `PROPERTY_FLAGS` bit: the length is given by another property
(`PropertyParamLength = 0x2`). -/
def PropertyParamLength : Nat := 2

/-- One entry of `TRACE_EVENT_INFO.EventPropertyInfoArray`.  The TDH struct
overlays `nonStructType.{InType, OutType}` with
`structType.{StructStartIndex, NumOfStructMembers}` in a union (both pairs of
USHORTs share storage), and likewise `length`/`lengthPropertyIndex` and
`count`/`countPropertyIndex`; the shared storage is modelled by single fields
with accessor definitions for each C spelling. -/
structure EVENT_PROPERTY_INFO where
  Flags : Nat
  NameOffset : Nat
  /-- union storage of `nonStructType.InType` and `structType.StructStartIndex` (USHORT). -/
  typeUnion1 : Nat
  /-- union storage of `nonStructType.OutType` and `structType.NumOfStructMembers` (USHORT). -/
  typeUnion2 : Nat
  MapNameOffset : Nat
  /-- union storage of `count` and `countPropertyIndex` (USHORT). -/
  countUnion : Nat
  /-- union storage of `length` and `lengthPropertyIndex` (USHORT). -/
  lengthUnion : Nat

/-- `nonStructType.InType`. -/
def EVENT_PROPERTY_INFO.InType (p : EVENT_PROPERTY_INFO) : Nat := p.typeUnion1

/-- `nonStructType.OutType`. -/
def EVENT_PROPERTY_INFO.OutType (p : EVENT_PROPERTY_INFO) : Nat := p.typeUnion2

/-- `structType.StructStartIndex` (same storage as `InType`). -/
def EVENT_PROPERTY_INFO.StructStartIndex (p : EVENT_PROPERTY_INFO) : Nat := p.typeUnion1

/-- `structType.NumOfStructMembers` (same storage as `OutType`). -/
def EVENT_PROPERTY_INFO.NumOfStructMembers (p : EVENT_PROPERTY_INFO) : Nat := p.typeUnion2

/-- `length` (same storage as `lengthPropertyIndex`). -/
def EVENT_PROPERTY_INFO.length (p : EVENT_PROPERTY_INFO) : Nat := p.lengthUnion

/-- `lengthPropertyIndex` (same storage as `length`). -/
def EVENT_PROPERTY_INFO.lengthPropertyIndex (p : EVENT_PROPERTY_INFO) : Nat := p.lengthUnion

/-- The schema blob: only the property array is read by the embedded code. -/
structure TRACE_EVENT_INFO where
  EventPropertyInfoArray : Nat → EVENT_PROPERTY_INFO

/-- `LARGE_INTEGER`: `LowPart` is a DWORD (unsigned), `HighPart` is a LONG
(signed 32-bit). -/
structure LARGE_INTEGER where
  LowPart : Nat
  HighPart : Int

/-- The parts of `EVENT_HEADER` read by the embedded functions. -/
structure EVENT_HEADER where
  TimeStamp : LARGE_INTEGER
  KernelTime : Nat
  UserTime : Nat

/-- The parts of `EVENT_RECORD` read by the embedded functions. -/
structure EVENT_RECORD where
  EventHeader : EVENT_HEADER
  UserData : Nat → Nat
  UserDataLength : Nat

/-- Oracle model of the two external TDH calls issued by `GetPropertyLength`.
Each is a function of the event record and of the `PropertyName` offset put in
the `PROPERTY_DATA_DESCRIPTOR`; `getStatus`/`getValue` additionally see the
`PropertySize` buffer size passed to `TdhGetProperty`.  `sizeValue` is the
`PropertySize` produced by `TdhGetPropertySize`; `getValue` is the DWORD
content of the `Length` buffer after `TdhGetProperty` returns. -/
structure TdhEnv where
  sizeStatus : EVENT_RECORD → Nat → Nat
  sizeValue : EVENT_RECORD → Nat → Nat
  getStatus : EVENT_RECORD → Nat → Nat → Nat
  getValue : EVENT_RECORD → Nat → Nat → Nat

/-- Result state of one `GetPropertyLength` call: the returned status, the
final contents of the `*PropertyLength` out-parameter (as its 32-bit
pattern; the error path leaves the previous contents in place), the event
record and schema as left after the call, and the list of
`(intype, outtype)` pairs written by `wprintf` diagnostics. -/
structure GPLResult where
  status : Nat
  PropertyLength : Nat
  pEvent : EVENT_RECORD
  pInfo : TRACE_EVENT_INFO
  printed : List (Nat × Nat)

/-- `GetPropertyLength` from `src/session.c` lines 72-124.  `PropertyLength`
is the value at the out-parameter's target before the call. -/
def GetPropertyLength (env : TdhEnv) (pEvent : EVENT_RECORD) (pInfo : TRACE_EVENT_INFO)
    (i : Nat) (PropertyLength : Nat) : GPLResult :=
  let status := ERROR_SUCCESS
  if Nat.land (pInfo.EventPropertyInfoArray i).Flags PropertyParamLength = PropertyParamLength then
    -- DWORD j = ...lengthPropertyIndex; descriptor names property j
    let j := (pInfo.EventPropertyInfoArray i).lengthPropertyIndex
    let PropertyName := (pInfo.EventPropertyInfoArray j).NameOffset
    let status := env.sizeStatus pEvent PropertyName
    let PropertySize := env.sizeValue pEvent PropertyName % 2 ^ 32
    let status := env.getStatus pEvent PropertyName PropertySize
    let Length := env.getValue pEvent PropertyName PropertySize % 2 ^ 32
    { status := status, PropertyLength := Length % 2 ^ 32,
      pEvent := pEvent, pInfo := pInfo, printed := [] }
  else
    if (pInfo.EventPropertyInfoArray i).length > 0 then
      { status := status, PropertyLength := (pInfo.EventPropertyInfoArray i).length,
        pEvent := pEvent, pInfo := pInfo, printed := [] }
    else if (pInfo.EventPropertyInfoArray i).InType = 14 ∧
        (pInfo.EventPropertyInfoArray i).OutType = 24 then
      -- *PropertyLength = (int)sizeof(IN6_ADDR)
      { status := status, PropertyLength := 16,
        pEvent := pEvent, pInfo := pInfo, printed := [] }
    else if (pInfo.EventPropertyInfoArray i).InType = 1 ∨
        (pInfo.EventPropertyInfoArray i).InType = 2 ∨
        Nat.land (pInfo.EventPropertyInfoArray i).Flags PropertyStruct = PropertyStruct then
      { status := status, PropertyLength := (pInfo.EventPropertyInfoArray i).length,
        pEvent := pEvent, pInfo := pInfo, printed := [] }
    else
      { status := ERROR_EVT_INVALID_EVENT_DATA, PropertyLength := PropertyLength,
        pEvent := pEvent, pInfo := pInfo,
        printed := [((pInfo.EventPropertyInfoArray i).InType,
                     (pInfo.EventPropertyInfoArray i).OutType)] }

/-- `PropertyIsStruct` from `src/session.c` lines 130-132. -/
def PropertyIsStruct (info : TRACE_EVENT_INFO) (i : Nat) : Bool :=
  Nat.land (info.EventPropertyInfoArray i).Flags PropertyStruct = PropertyStruct

/-- `GetStartIndex` from `src/session.c` lines 134-136. -/
def GetStartIndex (info : TRACE_EVENT_INFO) (i : Nat) : Nat :=
  (info.EventPropertyInfoArray i).StructStartIndex

/-- `GetLastIndex` from `src/session.c` lines 138-141. -/
def GetLastIndex (info : TRACE_EVENT_INFO) (i : Nat) : Nat :=
  (info.EventPropertyInfoArray i).StructStartIndex +
    (info.EventPropertyInfoArray i).NumOfStructMembers

/-- Conversion of a signed value to a ULONGLONG (two's-complement, 64-bit):
the C assignment `ULONGLONG time = (LONG)HighPart;`. -/
def toULONGLONG (x : Int) : Nat := (x % (2 ^ 64 : Int)).toNat

/-- `GetTimeStamp` from `src/session.c` lines 143-148: sign-extend the LONG
`HighPart` into a ULONGLONG, shift it left by 32 (wrapping mod `2 ^ 64`), and
OR in the DWORD `LowPart`. -/
def GetTimeStamp (EventRecord : EVENT_RECORD) : Nat :=
  let time := toULONGLONG EventRecord.EventHeader.TimeStamp.HighPart
  let time := (time <<< 32) % 2 ^ 64 ||| EventRecord.EventHeader.TimeStamp.LowPart
  time

/-!
Memory model for `RemoveTrailingSpace` (`src/session.c` lines 63-70): the
`EVENT_MAP_INFO` buffer is a byte memory `mem : Nat → Nat`, indexed by offset
from `pMapInfo`; each map entry contributes its `OutputOffset`.  A wide
character is the 16-bit little-endian word formed by two consecutive bytes;
`wcslen` walks words until a NUL word, modelled with explicit fuel so that it
stays executable (the C call diverges only on memory with no terminator,
which the fuel-exhausted `none` stands for).
-/

/-- The 16-bit word at byte offset `off`. -/
def wideWord (mem : Nat → Nat) (off : Nat) : Nat :=
  mem off % 256 + 256 * (mem (off + 1) % 256)

/-- Store the wide NUL `L'\0'` at byte offset `off`: both bytes become 0. -/
def writeWideNul (mem : Nat → Nat) (off : Nat) : Nat → Nat :=
  fun a => if a = off ∨ a = off + 1 then 0 else mem a

/-- `wcslen` over the word memory starting at byte offset `off`, with fuel. -/
def wcslenFuel : Nat → (Nat → Nat) → Nat → Option Nat
  | 0, _, _ => none
  | fuel + 1, mem, off =>
    if wideWord mem off = 0 then some 0
    else (wcslenFuel fuel mem (off + 2)).map (· + 1)

/-- The `ByteLength` computed at `src/session.c` line 67 from a `wcslen`
result `n`: `(n - 1) * 2` in `size_t` (64-bit) arithmetic, truncated to a
DWORD by the assignment. -/
def byteLengthOfWcslen (n : Nat) : Nat :=
  ((n + (2 ^ 64 - 1)) % 2 ^ 64 * 2) % 2 ^ 64 % 2 ^ 32

/-- One iteration of the `RemoveTrailingSpace` loop body (lines 67-68) on the
entry whose `OutputOffset` is given: compute `ByteLength` from the entry
string's `wcslen` and store a wide NUL at
`OutputOffset + ByteLength` (DWORD addition, wrapping mod `2 ^ 32`). -/
def removeTrailingSpaceEntry (fuel : Nat) (mem : Nat → Nat) (OutputOffset : Nat) :
    Option (Nat → Nat) :=
  (wcslenFuel fuel mem OutputOffset).map fun n =>
    writeWideNul mem ((OutputOffset + byteLengthOfWcslen n) % 2 ^ 32)

/-- `RemoveTrailingSpace` from `src/session.c` lines 63-70: iterate the loop
body over the entries' `OutputOffset`s in array order, threading the mutated
buffer. -/
def RemoveTrailingSpace (fuel : Nat) : (Nat → Nat) → List Nat → Option (Nat → Nat)
  | mem, [] => some mem
  | mem, o :: rest =>
    match removeTrailingSpaceEntry fuel mem o with
    | none => none
    | some mem2 => RemoveTrailingSpace fuel mem2 rest

/-!
Concrete fixtures for counterexamples and witnesses.
-/

/-- A trivial event record for concrete evaluations. -/
def rec0 : EVENT_RECORD where
  EventHeader :=
    { TimeStamp := { LowPart := 0, HighPart := 0 }
      KernelTime := 0
      UserTime := 0 }
  UserData := fun _ => 0
  UserDataLength := 0

/-- A TDH oracle whose calls all succeed and return zero. -/
def env0 : TdhEnv :=
  { sizeStatus := fun _ _ => 0, sizeValue := fun _ _ => 0,
    getStatus := fun _ _ _ => 0, getValue := fun _ _ _ => 0 }

/-- An IPv6-typed property (inType 14, outType 24) with declared length 5. -/
def propIPv6Len5 : EVENT_PROPERTY_INFO :=
  { Flags := 0, NameOffset := 0, typeUnion1 := 14, typeUnion2 := 24,
    MapNameOffset := 0, countUnion := 1, lengthUnion := 5 }

/-- Schema whose every property is `propIPv6Len5`. -/
def infoIPv6Len5 : TRACE_EVENT_INFO := ⟨fun _ => propIPv6Len5⟩

/-- An IPv6-typed property (inType 14, outType 24) with declared length 0. -/
def propIPv6 : EVENT_PROPERTY_INFO :=
  { Flags := 0, NameOffset := 0, typeUnion1 := 14, typeUnion2 := 24,
    MapNameOffset := 0, countUnion := 1, lengthUnion := 0 }

/-- Schema whose every property is `propIPv6`. -/
def infoIPv6 : TRACE_EVENT_INFO := ⟨fun _ => propIPv6⟩

/-- A property with `PropertyParamLength` set whose `lengthPropertyIndex` is 0. -/
def propParam : EVENT_PROPERTY_INFO :=
  { Flags := 2, NameOffset := 8, typeUnion1 := 14, typeUnion2 := 0,
    MapNameOffset := 0, countUnion := 1, lengthUnion := 0 }

/-- Schema whose every property is `propParam`. -/
def infoParam : TRACE_EVENT_INFO := ⟨fun _ => propParam⟩

/-- Oracle for the param-length witnesses: the size query fails with status 87,
the property fetch succeeds (status 0) and yields the decoded value 42. -/
def envW : TdhEnv :=
  { sizeStatus := fun _ _ => 87, sizeValue := fun _ _ => 4,
    getStatus := fun _ _ _ => 0, getValue := fun _ _ _ => 42 }

/-- Oracle whose property fetch fails with `ERROR_EVT_INVALID_EVENT_DATA`. -/
def envBad : TdhEnv :=
  { sizeStatus := fun _ _ => 0, sizeValue := fun _ _ => 4,
    getStatus := fun _ _ _ => 15005, getValue := fun _ _ _ => 0 }

/-- A struct property (`PropertyStruct` set, declared length 0) whose union
storage reads as inType 14 / outType 24 through `nonStructType` — i.e. a
struct span starting at member index 14 with 24 members. -/
def propStructIPv6 : EVENT_PROPERTY_INFO :=
  { Flags := 1, NameOffset := 0, typeUnion1 := 14, typeUnion2 := 24,
    MapNameOffset := 0, countUnion := 1, lengthUnion := 0 }

/-- Schema whose every property is `propStructIPv6`. -/
def infoStructIPv6 : TRACE_EVENT_INFO := ⟨fun _ => propStructIPv6⟩

/-- A string property (inType 1) with declared length 0. -/
def propString : EVENT_PROPERTY_INFO :=
  { Flags := 0, NameOffset := 0, typeUnion1 := 1, typeUnion2 := 1,
    MapNameOffset := 0, countUnion := 1, lengthUnion := 0 }

/-- Schema whose every property is `propString`. -/
def infoString : TRACE_EVENT_INFO := ⟨fun _ => propString⟩

/-- A zero-length property of a type supporting neither zero length nor any
special case (inType 7 = UINT32, outType 0). -/
def propZeroErr : EVENT_PROPERTY_INFO :=
  { Flags := 0, NameOffset := 0, typeUnion1 := 7, typeUnion2 := 0,
    MapNameOffset := 0, countUnion := 1, lengthUnion := 0 }

/-- Schema whose every property is `propZeroErr`. -/
def infoZeroErr : TRACE_EVENT_INFO := ⟨fun _ => propZeroErr⟩

/-- Claim C1 counterexample: an IPv6-typed property (inType 14, outType 24,
`PropertyParamLength` clear) whose schema declares length 5 resolves to 5, not
16 — the `length > 0` check precedes the IPv6 special case, so the result is
not independent of the declared length field. -/
theorem C1_counterexample :
    Nat.land (infoIPv6Len5.EventPropertyInfoArray 0).Flags PropertyParamLength ≠
      PropertyParamLength ∧
    (infoIPv6Len5.EventPropertyInfoArray 0).InType = 14 ∧
    (infoIPv6Len5.EventPropertyInfoArray 0).OutType = 24 ∧
    (GetPropertyLength env0 rec0 infoIPv6Len5 0 0).PropertyLength = 5 ∧
    (5 : Nat) ≠ 16 := by decide

/-- Claim C1 (amended): for a property whose `PropertyParamLength` flag is not
set, whose declared length field is ZERO, and whose inType is 14 and outType
24 (IPv6), `GetPropertyLength` sets the property length to 16 (sizeof
IN6_ADDR) and succeeds. -/
theorem GetPropertyLength_ipv6_zero_length (env : TdhEnv) (pEvent : EVENT_RECORD)
    (pInfo : TRACE_EVENT_INFO) (i PropertyLength : Nat)
    (hflag : Nat.land (pInfo.EventPropertyInfoArray i).Flags PropertyParamLength ≠
      PropertyParamLength)
    (hlen : (pInfo.EventPropertyInfoArray i).length = 0)
    (hin : (pInfo.EventPropertyInfoArray i).InType = 14)
    (hout : (pInfo.EventPropertyInfoArray i).OutType = 24) :
    (GetPropertyLength env pEvent pInfo i PropertyLength).status = ERROR_SUCCESS ∧
    (GetPropertyLength env pEvent pInfo i PropertyLength).PropertyLength = 16 := by
  simp only [GetPropertyLength]
  rw [if_neg hflag, if_neg (by omega : ¬(pInfo.EventPropertyInfoArray i).length > 0),
    if_pos ⟨hin, hout⟩]
  exact ⟨rfl, rfl⟩

/-- Claim C1 witness: the amended theorem applied to a concrete IPv6 property
with declared length 0. -/
theorem GetPropertyLength_ipv6_zero_length_witness :
    (GetPropertyLength env0 rec0 infoIPv6 0 0).status = ERROR_SUCCESS ∧
    (GetPropertyLength env0 rec0 infoIPv6 0 0).PropertyLength = 16 :=
  GetPropertyLength_ipv6_zero_length env0 rec0 infoIPv6 0 0
    (by decide) (by decide) (by decide) (by decide)

/-- Claim C2: when the `PropertyParamLength` flag is set with
`lengthPropertyIndex = j < i`, and the TDH fetch of property j's decoded value
succeeds yielding the (16- or 32-bit) integer L, `GetPropertyLength` sets the
property length to L and returns `ERROR_SUCCESS`. -/
theorem GetPropertyLength_param_length (env : TdhEnv) (pEvent : EVENT_RECORD)
    (pInfo : TRACE_EVENT_INFO) (i PropertyLength L : Nat)
    (hflag : Nat.land (pInfo.EventPropertyInfoArray i).Flags PropertyParamLength =
      PropertyParamLength)
    (hj : (pInfo.EventPropertyInfoArray i).lengthPropertyIndex < i)
    (hstatus : env.getStatus pEvent
      (pInfo.EventPropertyInfoArray
        ((pInfo.EventPropertyInfoArray i).lengthPropertyIndex)).NameOffset
      (env.sizeValue pEvent
        (pInfo.EventPropertyInfoArray
          ((pInfo.EventPropertyInfoArray i).lengthPropertyIndex)).NameOffset % 2 ^ 32) =
      ERROR_SUCCESS)
    (hvalue : env.getValue pEvent
      (pInfo.EventPropertyInfoArray
        ((pInfo.EventPropertyInfoArray i).lengthPropertyIndex)).NameOffset
      (env.sizeValue pEvent
        (pInfo.EventPropertyInfoArray
          ((pInfo.EventPropertyInfoArray i).lengthPropertyIndex)).NameOffset % 2 ^ 32) = L)
    (hL : L < 2 ^ 32) :
    (GetPropertyLength env pEvent pInfo i PropertyLength).status = ERROR_SUCCESS ∧
    (GetPropertyLength env pEvent pInfo i PropertyLength).PropertyLength = L := by
  simp only [GetPropertyLength]
  rw [if_pos hflag]
  refine ⟨hstatus, ?_⟩
  show env.getValue pEvent
      (pInfo.EventPropertyInfoArray
        ((pInfo.EventPropertyInfoArray i).lengthPropertyIndex)).NameOffset
      (env.sizeValue pEvent
        (pInfo.EventPropertyInfoArray
          ((pInfo.EventPropertyInfoArray i).lengthPropertyIndex)).NameOffset % 2 ^ 32)
      % 2 ^ 32 % 2 ^ 32 = L
  rw [hvalue]
  omega

/-- Claim C2 witness: a concrete param-length property whose referenced
property decodes to 42. -/
theorem GetPropertyLength_param_length_witness :
    (GetPropertyLength envW rec0 infoParam 1 0).status = ERROR_SUCCESS ∧
    (GetPropertyLength envW rec0 infoParam 1 0).PropertyLength = 42 :=
  GetPropertyLength_param_length envW rec0 infoParam 1 0 42
    (by decide) (by decide) (by decide) (by decide) (by decide)

/-- Claim C3 counterexample: the claimed "if and only if" fails left to right —
with the `PropertyParamLength` flag SET (so the claim's conditions are false),
the function still returns `ERROR_EVT_INVALID_EVENT_DATA` when the
`TdhGetProperty` fetch itself fails with that status, which is propagated
verbatim. -/
theorem C3_counterexample :
    (GetPropertyLength envBad rec0 infoParam 1 0).status = ERROR_EVT_INVALID_EVENT_DATA ∧
    Nat.land (infoParam.EventPropertyInfoArray 1).Flags PropertyParamLength =
      PropertyParamLength := by decide

/-- Claim C3 (amended): for a property whose `PropertyParamLength` flag is
clear (so no external status can be propagated), `GetPropertyLength` returns
`ERROR_EVT_INVALID_EVENT_DATA` if and only if the declared length field is
zero, the property is not the IPv6 case (inType 14 / outType 24), its inType
is not a string type (not 1 and not 2), and its `PropertyStruct` flag is
clear; and on that error the `wprintf` diagnostic carries the property's
inType and outType. -/
theorem GetPropertyLength_zero_length_error (env : TdhEnv) (pEvent : EVENT_RECORD)
    (pInfo : TRACE_EVENT_INFO) (i PropertyLength : Nat)
    (hflag : Nat.land (pInfo.EventPropertyInfoArray i).Flags PropertyParamLength ≠
      PropertyParamLength) :
    ((GetPropertyLength env pEvent pInfo i PropertyLength).status =
        ERROR_EVT_INVALID_EVENT_DATA ↔
      ((pInfo.EventPropertyInfoArray i).length = 0 ∧
       ¬((pInfo.EventPropertyInfoArray i).InType = 14 ∧
         (pInfo.EventPropertyInfoArray i).OutType = 24) ∧
       (pInfo.EventPropertyInfoArray i).InType ≠ 1 ∧
       (pInfo.EventPropertyInfoArray i).InType ≠ 2 ∧
       Nat.land (pInfo.EventPropertyInfoArray i).Flags PropertyStruct ≠ PropertyStruct)) ∧
    ((GetPropertyLength env pEvent pInfo i PropertyLength).status =
        ERROR_EVT_INVALID_EVENT_DATA →
      (GetPropertyLength env pEvent pInfo i PropertyLength).printed =
        [((pInfo.EventPropertyInfoArray i).InType,
          (pInfo.EventPropertyInfoArray i).OutType)]) := by
  simp only [GetPropertyLength]
  rw [if_neg hflag]
  split
  · next hlen =>
    constructor
    · constructor
      · intro h
        exact absurd h (by simp [ERROR_SUCCESS, ERROR_EVT_INVALID_EVENT_DATA])
      · intro h
        omega
    · intro h
      exact absurd h (by simp [ERROR_SUCCESS, ERROR_EVT_INVALID_EVENT_DATA])
  · split
    · next hip =>
      constructor
      · constructor
        · intro h
          exact absurd h (by simp [ERROR_SUCCESS, ERROR_EVT_INVALID_EVENT_DATA])
        · intro h
          exact absurd hip h.2.1
      · intro h
        exact absurd h (by simp [ERROR_SUCCESS, ERROR_EVT_INVALID_EVENT_DATA])
    · split
      · next hsel =>
        constructor
        · constructor
          · intro h
            exact absurd h (by simp [ERROR_SUCCESS, ERROR_EVT_INVALID_EVENT_DATA])
          · rintro ⟨-, -, h1, h2, h3⟩
            rcases hsel with h | h | h
            · exact absurd h h1
            · exact absurd h h2
            · exact absurd h h3
        · intro h
          exact absurd h (by simp [ERROR_SUCCESS, ERROR_EVT_INVALID_EVENT_DATA])
      · next hlen hip hsel =>
        refine ⟨⟨fun _ => ?_, fun _ => rfl⟩, fun _ => rfl⟩
        push_neg at hsel
        exact ⟨by omega, hip, hsel.1, hsel.2.1, hsel.2.2⟩

/-- Claim C3 witness: a concrete zero-length UINT32 property (inType 7) makes
`GetPropertyLength` fail with `ERROR_EVT_INVALID_EVENT_DATA` and print the
type pair (7, 0). -/
theorem GetPropertyLength_zero_length_error_witness :
    (GetPropertyLength env0 rec0 infoZeroErr 0 0).status = ERROR_EVT_INVALID_EVENT_DATA ∧
    (GetPropertyLength env0 rec0 infoZeroErr 0 0).printed = [(7, 0)] := by
  have h := GetPropertyLength_zero_length_error env0 rec0 infoZeroErr 0 0 (by decide)
  have hs : (GetPropertyLength env0 rec0 infoZeroErr 0 0).status =
      ERROR_EVT_INVALID_EVENT_DATA := h.1.mpr (by decide)
  exact ⟨hs, (h.2 hs).trans (by decide)⟩

/-- Claim C6 counterexample: a struct property (`PropertyStruct` set,
declared length 0, `PropertyParamLength` clear) whose union storage reads as
inType 14 / outType 24 takes the IPv6 branch first and resolves to length 16,
not 0. -/
theorem C6_counterexample :
    Nat.land (infoStructIPv6.EventPropertyInfoArray 0).Flags PropertyParamLength ≠
      PropertyParamLength ∧
    (infoStructIPv6.EventPropertyInfoArray 0).length = 0 ∧
    PropertyIsStruct infoStructIPv6 0 = true ∧
    (GetPropertyLength env0 rec0 infoStructIPv6 0 0).PropertyLength = 16 ∧
    (16 : Nat) ≠ 0 := by decide

/-- Claim C6 (amended): for a property whose `PropertyParamLength` flag is
clear and declared length is zero, if its inType is a string type (1 or 2) or
its `PropertyStruct` flag is set, AND it does not read as the IPv6 case
(inType 14 / outType 24, which is checked first), then `GetPropertyLength`
succeeds and leaves the effective length at zero. -/
theorem GetPropertyLength_string_or_struct_zero (env : TdhEnv) (pEvent : EVENT_RECORD)
    (pInfo : TRACE_EVENT_INFO) (i PropertyLength : Nat)
    (hflag : Nat.land (pInfo.EventPropertyInfoArray i).Flags PropertyParamLength ≠
      PropertyParamLength)
    (hlen : (pInfo.EventPropertyInfoArray i).length = 0)
    (hip : ¬((pInfo.EventPropertyInfoArray i).InType = 14 ∧
      (pInfo.EventPropertyInfoArray i).OutType = 24))
    (hsel : (pInfo.EventPropertyInfoArray i).InType = 1 ∨
      (pInfo.EventPropertyInfoArray i).InType = 2 ∨ PropertyIsStruct pInfo i = true) :
    (GetPropertyLength env pEvent pInfo i PropertyLength).status = ERROR_SUCCESS ∧
    (GetPropertyLength env pEvent pInfo i PropertyLength).PropertyLength = 0 := by
  simp only [GetPropertyLength]
  rw [if_neg hflag, if_neg (by omega : ¬(pInfo.EventPropertyInfoArray i).length > 0),
    if_neg hip, if_pos (by simpa [PropertyIsStruct] using hsel)]
  exact ⟨rfl, hlen⟩

/-- Claim C6 witness: a concrete zero-length string property (inType 1)
resolves to length 0 with success. -/
theorem GetPropertyLength_string_or_struct_zero_witness :
    (GetPropertyLength env0 rec0 infoString 0 0).status = ERROR_SUCCESS ∧
    (GetPropertyLength env0 rec0 infoString 0 0).PropertyLength = 0 :=
  GetPropertyLength_string_or_struct_zero env0 rec0 infoString 0 0
    (by decide) (by decide) (by decide) (by decide)

/-- Claim C7: for every schema and property index, `GetStartIndex` returns
`StructStartIndex`, `GetLastIndex` returns
`StructStartIndex + NumOfStructMembers` (the exclusive end), and their
difference is exactly `NumOfStructMembers`. -/
theorem GetStartIndex_GetLastIndex_span (info : TRACE_EVENT_INFO) (i : Nat) :
    GetStartIndex info i = (info.EventPropertyInfoArray i).StructStartIndex ∧
    GetLastIndex info i = (info.EventPropertyInfoArray i).StructStartIndex +
      (info.EventPropertyInfoArray i).NumOfStructMembers ∧
    GetLastIndex info i - GetStartIndex info i =
      (info.EventPropertyInfoArray i).NumOfStructMembers := by
  refine ⟨rfl, rfl, ?_⟩
  unfold GetLastIndex GetStartIndex
  omega

/-- Claim C8: `GetPropertyLength` never mutates the event record or the
schema: the record and schema coming out of the call are the ones passed in,
on every path (success and error alike); only the `PropertyLength`
out-parameter and the returned status differ. -/
theorem GetPropertyLength_frame (env : TdhEnv) (pEvent : EVENT_RECORD)
    (pInfo : TRACE_EVENT_INFO) (i PropertyLength : Nat) :
    (GetPropertyLength env pEvent pInfo i PropertyLength).pEvent = pEvent ∧
    (GetPropertyLength env pEvent pInfo i PropertyLength).pInfo = pInfo := by
  simp only [GetPropertyLength]
  repeat' split
  all_goals exact ⟨rfl, rfl⟩

/-- Claim C9: in the `PropertyParamLength` branch, the status of
`TdhGetPropertySize` is immediately overwritten by the status of
`TdhGetProperty`, so the function's return value equals the fetch's status;
moreover the result does not depend on the size query's status at all. -/
theorem GetPropertyLength_size_status_overwritten (env : TdhEnv) (pEvent : EVENT_RECORD)
    (pInfo : TRACE_EVENT_INFO) (i PropertyLength : Nat)
    (hflag : Nat.land (pInfo.EventPropertyInfoArray i).Flags PropertyParamLength =
      PropertyParamLength) :
    (GetPropertyLength env pEvent pInfo i PropertyLength).status =
      env.getStatus pEvent
        (pInfo.EventPropertyInfoArray
          ((pInfo.EventPropertyInfoArray i).lengthPropertyIndex)).NameOffset
        (env.sizeValue pEvent
          (pInfo.EventPropertyInfoArray
            ((pInfo.EventPropertyInfoArray i).lengthPropertyIndex)).NameOffset % 2 ^ 32) ∧
    (∀ f : EVENT_RECORD → Nat → Nat,
      GetPropertyLength { env with sizeStatus := f } pEvent pInfo i PropertyLength =
        GetPropertyLength env pEvent pInfo i PropertyLength) := by
  refine ⟨?_, fun f => rfl⟩
  simp only [GetPropertyLength]
  rw [if_pos hflag]

/-- Claim C9 witness: with an oracle whose size query fails with status 87 but
whose fetch succeeds, the function still returns the fetch's status 0. -/
theorem GetPropertyLength_size_status_overwritten_witness :
    (GetPropertyLength envW rec0 infoParam 1 0).status = 0 := by
  rw [(GetPropertyLength_size_status_overwritten envW rec0 infoParam 1 0 (by decide)).1]
  rfl

/-- Event record with raw timestamp halves high = 0x00000001,
low = 0xFFFFFFFF. -/
def recC4 : EVENT_RECORD where
  EventHeader :=
    { TimeStamp := { LowPart := 4294967295, HighPart := 1 }
      KernelTime := 0
      UserTime := 0 }
  UserData := fun _ => 0
  UserDataLength := 0

/-- Claim C4: for every record whose raw timestamp halves are a LONG
`HighPart` and a DWORD `LowPart`, `GetTimeStamp` composes exactly
`(high <<< 32) ||| low` where `high` is the 32-bit unsigned pattern of the
high half — the sign-extension of the intermediate LONG-to-ULONGLONG
conversion is discarded by the 32-bit shift, so the composition is exact even
when the high half has its top bit set. -/
theorem GetTimeStamp_composes (r : EVENT_RECORD)
    (h1 : -(2 ^ 31) ≤ r.EventHeader.TimeStamp.HighPart)
    (h2 : r.EventHeader.TimeStamp.HighPart < 2 ^ 31)
    (h3 : r.EventHeader.TimeStamp.LowPart < 2 ^ 32) :
    GetTimeStamp r =
      ((r.EventHeader.TimeStamp.HighPart % 2 ^ 32).toNat <<< 32) |||
        r.EventHeader.TimeStamp.LowPart := by
  have key : (toULONGLONG r.EventHeader.TimeStamp.HighPart <<< 32) % 2 ^ 64 =
      (r.EventHeader.TimeStamp.HighPart % 2 ^ 32).toNat <<< 32 := by
    rw [Nat.shiftLeft_eq, Nat.shiftLeft_eq, toULONGLONG,
      (show (2 : Nat) ^ 64 = 2 ^ 32 * 2 ^ 32 by norm_num),
      Nat.mul_mod_mul_right]
    have hmm : (r.EventHeader.TimeStamp.HighPart % 2 ^ 64).toNat % 2 ^ 32 =
        (r.EventHeader.TimeStamp.HighPart % 2 ^ 32).toNat := by omega
    rw [hmm]
  simp only [GetTimeStamp]
  rw [key]

/-- Claim C4 witness: high = 1 with low = 0xFFFFFFFF composes to
0x1FFFFFFFF. -/
theorem GetTimeStamp_composes_witness : GetTimeStamp recC4 = 8589934591 := by
  rw [GetTimeStamp_composes recC4 (by decide) (by decide) (by decide)]
  have h1 : (recC4.EventHeader.TimeStamp.HighPart % 2 ^ 32).toNat <<< 32 = 2 ^ 32 * 1 := by
    decide
  have h2 : recC4.EventHeader.TimeStamp.LowPart = 4294967295 := rfl
  rw [h1, h2, ← Nat.mul_add_lt_is_or (by norm_num : (4294967295 : Nat) < 2 ^ 32) 1]

/-- `wcslenFuel` depends only on the bytes of the string region
`[off, off + 2 * n + 2)` (the characters plus the terminator word). -/
theorem wcslenFuel_congr (fuel : Nat) :
    ∀ (mem mem2 : Nat → Nat) (off n : Nat),
      wcslenFuel fuel mem off = some n →
      (∀ a, off ≤ a → a < off + 2 * n + 2 → mem2 a = mem a) →
      wcslenFuel fuel mem2 off = some n := by
  induction fuel with
  | zero =>
    intro mem mem2 off n h _
    simp [wcslenFuel] at h
  | succ f ih =>
    intro mem mem2 off n h hagree
    simp only [wcslenFuel] at h ⊢
    by_cases hz : wideWord mem off = 0
    · rw [if_pos hz] at h
      have hn : n = 0 := by simpa using h.symm
      subst hn
      have hz2 : wideWord mem2 off = 0 := by
        unfold wideWord
        rw [hagree off (Nat.le_refl off) (by omega), hagree (off + 1) (by omega) (by omega)]
        exact hz
      rw [if_pos hz2]
    · rw [if_neg hz] at h
      obtain ⟨m, hm, hmn⟩ := Option.map_eq_some'.mp h
      subst hmn
      have hz2 : wideWord mem2 off ≠ 0 := by
        unfold wideWord
        rw [hagree off (Nat.le_refl off) (by omega), hagree (off + 1) (by omega) (by omega)]
        exact hz
      rw [if_neg hz2,
        ih mem mem2 (off + 2) m hm (fun a h1 h2 => hagree a (by omega) (by omega))]
      rfl

/-- Writing the wide NUL at the position of a non-empty string's last
character shortens the string by exactly one. -/
theorem wcslenFuel_write_last (fuel : Nat) :
    ∀ (mem : Nat → Nat) (off n : Nat),
      wcslenFuel fuel mem off = some (n + 1) →
      wcslenFuel fuel (writeWideNul mem (off + 2 * n)) off = some n := by
  induction fuel with
  | zero =>
    intro mem off n h
    simp [wcslenFuel] at h
  | succ f ih =>
    intro mem off n h
    simp only [wcslenFuel] at h ⊢
    by_cases hz : wideWord mem off = 0
    · rw [if_pos hz] at h
      simp at h
    · rw [if_neg hz] at h
      obtain ⟨m, hm, hmn⟩ := Option.map_eq_some'.mp h
      have hmn2 : m = n := by omega
      subst hmn2
      cases m with
      | zero =>
        have hz2 : wideWord (writeWideNul mem (off + 2 * 0)) off = 0 := by
          simp [wideWord, writeWideNul]
        rw [if_pos hz2]
      | succ k =>
        have a1 : writeWideNul mem (off + 2 * (k + 1)) off = mem off := by
          simp only [writeWideNul]
          rw [if_neg (by omega :
            ¬(off = off + 2 * (k + 1) ∨ off = off + 2 * (k + 1) + 1))]
        have a2 : writeWideNul mem (off + 2 * (k + 1)) (off + 1) = mem (off + 1) := by
          simp only [writeWideNul]
          rw [if_neg (by omega :
            ¬(off + 1 = off + 2 * (k + 1) ∨ off + 1 = off + 2 * (k + 1) + 1))]
        have hz2 : wideWord (writeWideNul mem (off + 2 * (k + 1))) off ≠ 0 := by
          unfold wideWord
          rw [a1, a2]
          exact hz
        rw [if_neg hz2]
        have heq : off + 2 * (k + 1) = (off + 2) + 2 * k := by omega
        rw [heq, ih mem (off + 2) k hm]
        rfl

/-- On a non-empty entry string (and absent 32-bit wraparound), the
`RemoveTrailingSpace` loop body writes the wide NUL exactly at the string's
last character. -/
theorem removeTrailingSpaceEntry_nonempty (fuel : Nat) (mem : Nat → Nat) (off n : Nat)
    (h : wcslenFuel fuel mem off = some (n + 1)) (hb : off + 2 * n < 2 ^ 32) :
    removeTrailingSpaceEntry fuel mem off = some (writeWideNul mem (off + 2 * n)) := by
  unfold removeTrailingSpaceEntry
  rw [h, Option.map_some']
  have hbl : byteLengthOfWcslen (n + 1) = 2 * n := by
    unfold byteLengthOfWcslen
    omega
  rw [hbl, Nat.mod_eq_of_lt hb]

/-- Byte offset `a` lies in the region of a map entry at `off` whose string
has `len` characters: the characters plus the terminator word. -/
def inRegion (off len a : Nat) : Prop := off ≤ a ∧ a < off + 2 * len + 2

/-- Bytes of two overlapping entry strings: the 16-bit words at byte offsets
0, 2, 4 are 65 (the character A), 66 (B), 0 — so the entry at offset 0 reads
"AB" and the entry at offset 2 reads "B". -/
def memAB : Nat → Nat := fun a => [65, 0, 66, 0, 0, 0].getD a 0

/-- Bytes of the entry string "Enabled " (one trailing pad character) followed
by its NUL terminator, at byte offset 0. -/
def memEnabled : Nat → Nat :=
  fun a => [69, 0, 110, 0, 97, 0, 98, 0, 108, 0, 101, 0, 100, 0, 32, 0, 0, 0].getD a 0

/-- Memory whose only NUL word sits at byte offset 100 (an empty entry
string there); every other byte is 1. -/
def memC10 : Nat → Nat := fun a => if a = 100 ∨ a = 101 then 0 else 1

/-- Claim C5 counterexample: with two ALIASED entries (offsets 0 and 2 over
the bytes of `memAB`), the entry at offset 0 starts non-empty (length 2) but
after `RemoveTrailingSpace` its string has length 0, not 2 - 1 = 1: the
second entry's string was emptied by the first entry's write, and its own
wrapped write then cleared the first entry's remaining character. -/
theorem C5_counterexample :
    wcslenFuel 10 memAB 0 = some 2 ∧
    wcslenFuel 10 memAB 2 = some 1 ∧
    (RemoveTrailingSpace 10 memAB [0, 2]).map (fun m => wcslenFuel 10 m 0) =
      some (some 0) ∧
    (2 : Nat) - 1 ≠ 0 := by decide

/-- Claim C5 (amended): for every map-info table whose entries' string
regions are pairwise disjoint (no aliasing) and whose strings are all
non-empty and free of 32-bit offset wraparound, `RemoveTrailingSpace`
shortens every entry's string by exactly one trailing character, writes a NUL
terminator at the new end, and touches no byte outside the entries'
regions. -/
theorem RemoveTrailingSpace_shortens (fuel : Nat) (L : Nat → Nat) :
    ∀ (offs : List Nat) (mem : Nat → Nat),
      (∀ o ∈ offs, wcslenFuel fuel mem o = some (L o) ∧ 1 ≤ L o ∧
        o + 2 * L o < 2 ^ 32) →
      offs.Pairwise (fun o1 o2 => ∀ a, ¬(inRegion o1 (L o1) a ∧ inRegion o2 (L o2) a)) →
      ∃ mem2, RemoveTrailingSpace fuel mem offs = some mem2 ∧
        (∀ o ∈ offs, wcslenFuel fuel mem2 o = some (L o - 1) ∧
          wideWord mem2 (o + 2 * (L o - 1)) = 0) ∧
        (∀ a, (∀ o ∈ offs, ¬inRegion o (L o) a) → mem2 a = mem a) := by
  intro offs
  induction offs with
  | nil =>
    intro mem _ _
    exact ⟨mem, rfl, by simp, fun a _ => rfl⟩
  | cons o rest ih =>
    intro mem hents hdisj
    obtain ⟨hR, hdisj2⟩ := List.pairwise_cons.mp hdisj
    obtain ⟨hlen, hge, hbound⟩ := hents o (List.mem_cons_self o rest)
    obtain ⟨n, hn⟩ : ∃ n, L o = n + 1 := ⟨L o - 1, by omega⟩
    have hstep := removeTrailingSpaceEntry_nonempty fuel mem o n (hn ▸ hlen) (by omega)
    have hrun : RemoveTrailingSpace fuel mem (o :: rest) =
        RemoveTrailingSpace fuel (writeWideNul mem (o + 2 * n)) rest := by
      simp only [RemoveTrailingSpace]
      rw [hstep]
    -- the write lands inside the head entry's region
    have hwin : ∀ a, (a = o + 2 * n ∨ a = o + 2 * n + 1) → inRegion o (L o) a := by
      intro a ha
      unfold inRegion
      omega
    -- bytes outside the head's region are untouched by the head's write
    have huntouched : ∀ a, ¬inRegion o (L o) a →
        writeWideNul mem (o + 2 * n) a = mem a := by
      intro a ha
      simp only [writeWideNul]
      rw [if_neg (fun hc => ha (hwin a hc))]
    -- the remaining entries still satisfy the hypotheses in the new memory
    have hents2 : ∀ o2 ∈ rest, wcslenFuel fuel (writeWideNul mem (o + 2 * n)) o2 =
        some (L o2) ∧ 1 ≤ L o2 ∧ o2 + 2 * L o2 < 2 ^ 32 := by
      intro o2 ho2
      obtain ⟨hl2, hg2, hb2⟩ := hents o2 (List.mem_cons_of_mem o ho2)
      refine ⟨?_, hg2, hb2⟩
      refine wcslenFuel_congr fuel mem _ o2 (L o2) hl2 ?_
      intro a ha1 ha2
      refine huntouched a ?_
      intro hin
      exact hR o2 ho2 a ⟨hin, ha1, ha2⟩
    obtain ⟨mem2, hrun2, hprops2, hframe2⟩ :=
      ih (writeWideNul mem (o + 2 * n)) hents2 hdisj2
    refine ⟨mem2, hrun.trans hrun2, ?_, ?_⟩
    · intro o2 ho2
      rcases List.mem_cons.mp ho2 with rfl | ho2m
      · -- the head entry: transfer the shortened string from mem1 to mem2
        have hshort := wcslenFuel_write_last fuel mem o2 n (hn ▸ hlen)
        have hagree : ∀ a, o2 ≤ a → a < o2 + 2 * n + 2 → mem2 a =
            writeWideNul mem (o2 + 2 * n) a := by
          intro a ha1 ha2
          refine hframe2 a ?_
          intro o3 ho3 hin3
          exact hR o3 ho3 a ⟨by unfold inRegion; omega, hin3⟩
        have hres := wcslenFuel_congr fuel _ mem2 o2 n hshort hagree
        have hnul : wideWord mem2 (o2 + 2 * n) = 0 := by
          unfold wideWord
          rw [hagree (o2 + 2 * n) (by omega) (by omega),
            hagree (o2 + 2 * n + 1) (by omega) (by omega)]
          simp [writeWideNul]
        have hL1 : L o2 - 1 = n := by omega
        rw [hL1]
        exact ⟨hres, hnul⟩
      · exact hprops2 o2 ho2m
    · intro a ha
      have h1 := hframe2 a (fun o3 ho3 => ha o3 (List.mem_cons_of_mem o ho3))
      rw [h1, huntouched a (ha o (List.mem_cons_self o rest))]

/-- Claim C5 witness: the single-entry table holding "Enabled " (8
characters) is shortened to a 7-character string "Enabled" with a NUL
terminator written at byte offset 14. -/
theorem RemoveTrailingSpace_shortens_witness :
    ∃ mem2, RemoveTrailingSpace 20 memEnabled [0] = some mem2 ∧
      wcslenFuel 20 mem2 0 = some 7 ∧ wideWord mem2 14 = 0 := by
  obtain ⟨mem2, h1, h2, h3⟩ :=
    RemoveTrailingSpace_shortens 20 (fun _ => 8) [0] memEnabled (by decide) (by simp)
  refine ⟨mem2, h1, ?_, ?_⟩
  · simpa using (h2 0 (by simp)).1
  · simpa using (h2 0 (by simp)).2

/-- Claim C10: on an entry whose output string is empty, the loop body of
`RemoveTrailingSpace` is executed with `ByteLength` = (0 - 1) * 2 wrapped to
0xFFFFFFFE (after the DWORD truncation), so the wide NUL is written at byte
offset `(OutputOffset + 0xFFFFFFFE) % 2 ^ 32` from the map-info base — for
`OutputOffset ≥ 2` that is `OutputOffset - 2`, i.e. before (outside) the
entry's own string. -/
theorem removeTrailingSpaceEntry_empty (fuel : Nat) (mem : Nat → Nat) (off : Nat)
    (hf : 0 < fuel) (he : wideWord mem off = 0) :
    byteLengthOfWcslen 0 = 4294967294 ∧
    removeTrailingSpaceEntry fuel mem off =
      some (writeWideNul mem ((off + 4294967294) % 2 ^ 32)) ∧
    (2 ≤ off → off < 2 ^ 32 → (off + 4294967294) % 2 ^ 32 = off - 2) := by
  have hbl : byteLengthOfWcslen 0 = 4294967294 := by decide
  refine ⟨hbl, ?_, fun h1 h2 => by omega⟩
  obtain ⟨f, rfl⟩ : ∃ f, fuel = f + 1 := ⟨fuel - 1, by omega⟩
  unfold removeTrailingSpaceEntry
  have hz : wcslenFuel (f + 1) mem off = some 0 := by
    simp only [wcslenFuel]
    rw [if_pos he]
  rw [hz, Option.map_some', hbl]

/-- Claim C10 witness: on `memC10` (empty string at offset 100, all other
bytes 1) the loop body writes the NUL at byte offset 98 — outside the entry's
string — changing bytes that were 1 to 0, so the call is not a no-op. -/
theorem removeTrailingSpaceEntry_empty_witness :
    removeTrailingSpaceEntry 1 memC10 100 =
      some (writeWideNul memC10 ((100 + 4294967294) % 2 ^ 32)) ∧
    (100 + 4294967294) % 2 ^ 32 = 98 ∧
    writeWideNul memC10 ((100 + 4294967294) % 2 ^ 32) 98 = 0 ∧
    memC10 98 = 1 :=
  ⟨(removeTrailingSpaceEntry_empty 1 memC10 100 (by decide) (by decide)).2.1,
    by decide, by decide, by decide⟩
